import Mathlib

/-!
Verification development for the tor-ctrl repository (a Node.js client for
the Tor control port). The definitions below are a shallow embedding of
src/index.ts: the TorControl class becomes a Session record, the socket
becomes an Option-valued handle identifier, and each method becomes a pure
function whose environment inputs (the payload of the next transport data
event, the outcome of reading the cookie file) are passed as arguments.
-/

namespace TorCtrl

/-- The two values of the private field named state in the TorControl class
(src/index.ts line 9). -/
inductive ConnState where
  | connected
  | disconnected
deriving DecidableEq, Repr

/-- The configuration record after constructor defaulting
(TorControlConfig in src/types.ts plus the optional socketPath and
cookiePath fields read by src/index.ts). -/
structure TorControlConfig where
  host : String
  port : Nat
  socketPath : Option String
  password : Option String
  cookiePath : Option String
deriving DecidableEq, Repr

/-- The constructor argument: a partial configuration in which host and
port may be absent (src/index.ts lines 19 to 30). -/
structure PartialConfig where
  host : Option String
  port : Option Nat
  socketPath : Option String
  password : Option String
  cookiePath : Option String
deriving DecidableEq, Repr

/-- One TorControl instance: the private fields of the class that the
claims mention. The transport handle is a socket identifier, none when no socket
object is held (src/index.ts lines 7 to 9). -/
structure Session where
  connection : Option Nat
  state : ConnState
  config : TorControlConfig
deriving DecidableEq, Repr

/-- The TorControl constructor (src/index.ts lines 19 to 40): defaults
host to localhost and port to 9051 when absent, starts with a null
connection and the state field at disconnected. -/
def mkTorControl (c : PartialConfig) : Session :=
  { connection := none
    state := ConnState.disconnected
    config :=
      { host := c.host.getD "localhost"
        port := c.port.getD 9051
        socketPath := c.socketPath
        password := c.password
        cookiePath := c.cookiePath } }

/-- JS String.prototype.split with a one-character separator, on a char
list: splits at every occurrence of the separator and keeps empty
segments, exactly as message.split on the equals sign behaves in
src/index.ts line 252. -/
def jsSplitChars (sep : Char) : List Char → List (List Char)
  | [] => [[]]
  | c :: cs =>
    if c = sep then [] :: jsSplitChars sep cs
    else
      match jsSplitChars sep cs with
      | [] => [[c]]
      | seg :: rest => (c :: seg) :: rest

/-- JS String.prototype.split with a one-character separator, on strings. -/
def jsSplit (sep : Char) (s : String) : List String :=
  (jsSplitChars sep s.toList).map (fun cs => String.mk cs)

/-- The character-level split behind src/index.ts line 159: str.split on
the regular expression matching an optional carriage return followed by
a newline. Scanning left to right, a carriage return starts a separator
only when a newline directly follows it, and a lone newline is a
separator by itself; every other character, a carriage return with no
following newline included, stays inside its segment. -/
def splitCRLFChars : List Char → List (List Char)
  | [] => [[]]
  | '\r' :: '\n' :: rest => [] :: splitCRLFChars rest
  | '\n' :: rest => [] :: splitCRLFChars rest
  | c :: rest =>
    match splitCRLFChars rest with
    | [] => [[c]]
    | seg :: segs => (c :: seg) :: segs

/-- The line split of src/index.ts line 159: str.split on the regular
expression matching an optional carriage return followed by a newline. -/
def splitReplyLines (s : String) : List String :=
  (splitCRLFChars s.toList).map (fun cs => String.mk cs)

/-- JS Number applied to a short string, as in src/index.ts line 167 on
the three leading characters of a reply line. Modelled on the integer
literal fragment of the Number grammar (optional surrounding whitespace,
optional sign, decimal digits); the empty or all-whitespace string gives
zero, and every other string outside this fragment gives none, standing
for NaN. All status codes the claims mention are three decimal digits,
inside this fragment. -/
def jsWhitespace (c : Char) : Bool :=
  c = ' ' || c = '\t' || c = '\n' || c = '\r'

/-- JS string trimming restricted to the common whitespace characters. -/
def jsTrimChars (l : List Char) : List Char :=
  ((l.dropWhile jsWhitespace).reverse.dropWhile jsWhitespace).reverse

/-- Value of a non-empty string of decimal digits; none otherwise. -/
def decDigitsVal (l : List Char) : Option Nat :=
  if l.isEmpty then none
  else if l.all Char.isDigit then
    some (l.foldl (fun n c => n * 10 + (c.toNat - 48)) 0)
  else none

def jsNumber (s : String) : Option Int :=
  match jsTrimChars s.toList with
  | [] => some 0
  | '-' :: rest => (decDigitsVal rest).map (fun n => -(n : Int))
  | '+' :: rest => (decDigitsVal rest).map (fun n => (n : Int))
  | l => (decDigitsVal l).map (fun n => (n : Int))

/-- One parsed reply line (the Result type of src/types.ts): code is the
JS Number of the first three characters (none standing for NaN), message
is the substring from offset four (src/index.ts lines 166 to 167). -/
structure Result where
  code : Option Int
  message : String
deriving DecidableEq, Repr

/-- Parsing of one line inside the loop of src/index.ts lines 164 to 173:
message is line.substring starting at four, code is Number of
line.substring of the first three characters. -/
def lineToResult (line : String) : Result :=
  { code := jsNumber (line.take 3), message := line.drop 4 }

/-- The non-empty segments of the received payload, in arrival order:
the loop in src/index.ts lines 164 to 174 skips exactly the empty
segments of the line split. -/
def nonEmptyLines (str : String) : List String :=
  (splitReplyLines str).filter (fun l => l != "")

/-- The Reply List that the data handler of sendCommand builds from one
received payload (src/index.ts lines 155 to 176): one Result per
non-empty segment, in order. -/
def parseReply (str : String) : List Result :=
  (nonEmptyLines str).map lineToResult

/-- The command argument of sendCommand: either a pre-joined line or an
array of tokens (src/index.ts line 140). -/
inductive Command where
  | line (s : String)
  | tokens (ts : List String)
deriving DecidableEq, Repr

/-- Array commands are joined with single spaces (src/index.ts lines 149
to 151). -/
def Command.toLine : Command → String
  | Command.line s => s
  | Command.tokens ts => String.intercalate " " ts

deriving instance DecidableEq for Except

/-- Outcome of one sendCommand call: the SafeReturn value it settles with
(error branch or data branch) and the list of payloads written to the
transport during the call. -/
structure SendOutcome where
  result : Except String (List Result)
  writes : List String
deriving DecidableEq, Repr

/-- sendCommand (src/index.ts lines 140 to 183). When the connection
field is null it settles with the not-connected error before any write.
Otherwise it writes the command line followed by CRLF and settles with
the parse of the next inbound data payload, which is passed here as the
reply argument since the transport is an external collaborator. -/
def sendCommand (s : Session) (cmd : Command) (reply : String) : SendOutcome :=
  match s.connection with
  | none => { result := Except.error "TorControl not connected", writes := [] }
  | some _ =>
    { result := Except.ok (parseReply reply)
      writes := [cmd.toLine ++ "\r\n"] }

/-- The private helper that resolves a sendCommand promise and picks one
element (src/index.ts lines 185 to 192). Indexing data at pick is JS
array indexing, so an out-of-range pick yields undefined, modelled as
none. -/
def solveAndPick (r : Except String (List Result)) (pick : Nat) :
    Except String (Option Result) :=
  match r with
  | Except.error e => Except.error e
  | Except.ok data => Except.ok (data.get? pick)

/-- authenticate (src/index.ts lines 204 to 206): sends AUTHENTICATE with
the password wrapped in double quotes and picks the first reply line. -/
def authenticate (s : Session) (password : String) (reply : String) :
    Except String (Option Result) :=
  solveAndPick
    (sendCommand s (Command.line ("AUTHENTICATE \"" ++ password ++ "\"")) reply).result 0

/-- authenticateWithCookie (src/index.ts lines 213 to 226). Reading and
hex-encoding the cookie file is filesystem work outside the core, so its
outcome is the readResult argument: ok carries the hex-encoded trimmed
cookie, error carries the failure message, which the method wraps. -/
def authenticateWithCookie (s : Session) (readResult : Except String String)
    (reply : String) : Except String (Option Result) :=
  match readResult with
  | Except.error e => Except.error ("Failed to read cookie file: " ++ e)
  | Except.ok cookie =>
    solveAndPick
      (sendCommand s (Command.line ("AUTHENTICATE " ++ cookie)) reply).result 0

/-- quit (src/index.ts lines 232 to 234). -/
def quit (s : Session) (reply : String) : Except String (Option Result) :=
  solveAndPick (sendCommand s (Command.line "QUIT") reply).result 0

/-- getInfo (src/index.ts lines 337 to 339). -/
def getInfo (s : Session) (key : String) (reply : String) :
    Except String (Option Result) :=
  solveAndPick (sendCommand s (Command.tokens ["GETINFO", key]) reply).result 0

/-- setConfig (src/index.ts lines 260 to 262). -/
def setConfig (s : Session) (key value : String) (reply : String) :
    Except String (Option Result) :=
  solveAndPick
    (sendCommand s (Command.tokens ["SETCONF", key ++ "=" ++ value]) reply).result 0

/-- getConfig (src/index.ts lines 249 to 253): picks the first reply
line, splits its message on the equals sign and returns the element at
index 1. When the picked element is undefined, reading the message
property of undefined throws a TypeError, which rejects the returned
promise. When the split has no index 1 the value is undefined, returned
inside the data branch as none. -/
def getConfig (s : Session) (key : String) (reply : String) :
    Except String (Option String) :=
  match solveAndPick (sendCommand s (Command.tokens ["GETCONF", key]) reply).result 0 with
  | Except.error e => Except.error e
  | Except.ok none =>
    Except.error "TypeError: Cannot read properties of undefined (reading message)"
  | Except.ok (some r) => Except.ok ((jsSplit '=' r.message).get? 1)

/-- The transport-opening head of connect (src/index.ts lines 51 to 56):
a socket is created and assigned to the connection field. The fresh
socket object is represented by the identifier conn. No other field is
touched, in particular state keeps its previous value. -/
def connectOpen (s : Session) (conn : Nat) : Session :=
  { s with connection := some conn }

/-- The one-shot data handler inside connect (src/index.ts lines 67 to
79): the promise returned by connect settles with data true when the
first three characters of the first inbound payload are 250, and with a
connection error naming the raw payload otherwise. The session record is
returned unchanged because the handler assigns no field. -/
def connectOnFirstData (s : Session) (d : String) :
    Except String Bool × Session :=
  if d.take 3 = "250" then (Except.ok true, s)
  else (Except.error ("TorControl connection error: " ++ d), s)

/-- The close handler registered by connect (src/index.ts lines 82 to
85): sets the state field to disconnected. It does not clear the
connection field. -/
def onClose (s : Session) : Session :=
  { s with state := ConnState.disconnected }

/-- The authentication error branch inside connect (src/index.ts lines
88 to 102): when authenticate or authenticateWithCookie settles with an
error, connect settles with that same error. The handler assigns no
field, so the session record, in particular its connection field, is
returned unchanged. -/
def connectOnAuthError (s : Session) (e : String) :
    Except String Bool × Session :=
  (Except.error e, s)

/-- disconnect (src/index.ts lines 109 to 118). When the connection field
is null the body is skipped entirely. Otherwise quit is awaited, writing
QUIT (its reply is the quitReply argument and its result is discarded),
the socket is ended and the connection field is nulled; ending the socket
fires the close event, whose handler, registered by the connect call that
created this socket, sets state to disconnected. Returns the new session
and the payloads written. -/
def disconnect (s : Session) (quitReply : String) : Session × List String :=
  match s.connection with
  | none => (s, [])
  | some _ =>
    let out := sendCommand s (Command.line "QUIT") quitReply
    ({ s with connection := none, state := ConnState.disconnected }, out.writes)

/-- One observable step of a session: the operations and transport events
of src/index.ts that assign any field of the class. sendCommand and the
convenience commands assign no field, recorded here as the identity
step. -/
inductive Step : Session → Session → Prop where
  | connOpen (s : Session) (conn : Nat) : Step s (connectOpen s conn)
  | firstData (s : Session) (d : String) : Step s (connectOnFirstData s d).2
  | close (s : Session) : Step s (onClose s)
  | authError (s : Session) (e : String) : Step s (connectOnAuthError s e).2
  | disc (s : Session) (reply : String) : Step s (disconnect s reply).1
  | send (s : Session) (cmd : Command) (reply : String) : Step s s

/-- The sessions reachable from a freshly constructed TorControl instance
by any sequence of operations and transport events. -/
def Reachable (c : PartialConfig) (s : Session) : Prop :=
  Relation.ReflTransGen Step (mkTorControl c) s

/-- The password configuration of the README usage example. -/
def cfgPassword : PartialConfig :=
  { host := some "localhost"
    port := some 9051
    socketPath := none
    password := some "secure-password"
    cookiePath := none }

/-- The cookie configuration of the repository examples. -/
def cfgCookie : PartialConfig :=
  { host := none
    port := none
    socketPath := some "/var/run/tor/control"
    password := none
    cookiePath := some "/var/run/tor/control.authcookie" }

/-- A session right after the transport-opening head of connect ran on a
fresh password-configured instance. -/
def sConn : Session := connectOpen (mkTorControl cfgPassword) 1

/-- A session right after the transport-opening head of connect ran on a
fresh cookie-configured instance. -/
def sCookie : Session := connectOpen (mkTorControl cfgCookie) 2

/-- A two-line reply payload used to instantiate the parsing claims. -/
def replyTwoLines : String := "250-version=0.4.8.10\r\n250 OK\r\n"

-- ===============================
-- Helper lemmas
-- ===============================

theorem connectOnFirstData_snd (s : Session) (d : String) :
    (connectOnFirstData s d).2 = s := by
  unfold connectOnFirstData
  split <;> rfl

theorem disconnect_fst_state (s : Session) (r : String)
    (h : s.state = ConnState.disconnected) :
    (disconnect s r).1.state = ConnState.disconnected := by
  cases hc : s.connection <;> simp [disconnect, hc, h]

/-- No assignment in src/index.ts ever stores the value connected in the
state field, so every reachable session has state disconnected. -/
theorem state_disconnected_of_reachable {c : PartialConfig} {s : Session}
    (h : Reachable c s) : s.state = ConnState.disconnected := by
  induction h with
  | refl => rfl
  | tail _ hstep ih =>
    cases hstep with
    | connOpen conn => simpa [connectOpen] using ih
    | firstData d => rw [connectOnFirstData_snd]; exact ih
    | close => simp [onClose]
    | authError e => simpa [connectOnAuthError] using ih
    | disc reply => exact disconnect_fst_state _ reply ih
    | send cmd reply => exact ih

/-- A list of characters containing no occurrence of the separator is
split into the single segment consisting of the whole list. -/
theorem jsSplitChars_no_sep (sep : Char) (l : List Char)
    (h : ∀ c ∈ l, c ≠ sep) : jsSplitChars sep l = [l] := by
  induction l with
  | nil => rfl
  | cons c cs ih =>
    have hc : c ≠ sep := h c (List.mem_cons_self c cs)
    have hrest : jsSplitChars sep cs = [cs] :=
      ih (fun x hx => h x (List.mem_cons_of_mem c hx))
    simp [jsSplitChars, hc, hrest]

-- ===============================
-- C1
-- ===============================

/-- C1, counterexample: on a connected session, a reply burst whose only
line carries status code 515 makes sendCommand settle with the data
branch holding that line, not with an error; in particular it does not
reject with the message text of the line. The claim that any code at or
above 400 makes sendCommand reject is therefore false of the code. -/
theorem c1_counterexample :
    (sendCommand sConn (Command.line "AUTHENTICATE \"wrong\"")
        "515 Bad authentication\r\n").result
      = Except.ok [{ code := some 515, message := "Bad authentication" }] ∧
    (sendCommand sConn (Command.line "AUTHENTICATE \"wrong\"")
        "515 Bad authentication\r\n").result
      ≠ Except.error "Bad authentication" := by
  decide

/-- C1, amended: sendCommand never inspects status codes. Even when some
line of the reply burst carries a code at or above 400, sendCommand
settles with the data branch holding the full Reply List, that line
included, and never with an error. -/
theorem c1_amended_resolves (s : Session) (c : Nat) (cmd : Command)
    (reply : String) (hc : s.connection = some c)
    (hbad : ∃ r ∈ parseReply reply, ∃ n, r.code = some n ∧ (400 : Int) ≤ n) :
    (sendCommand s cmd reply).result = Except.ok (parseReply reply) ∧
    ∀ e, (sendCommand s cmd reply).result ≠ Except.error e := by
  refine ⟨by simp [sendCommand, hc], ?_⟩
  intro e
  simp [sendCommand, hc]

/-- Witness for c1_amended_resolves at a concrete 515 reply. -/
theorem c1_amended_resolves_witness :
    (sendCommand sConn (Command.line "AUTHENTICATE \"wrong\"")
        "515 Bad authentication\r\n").result
      = Except.ok (parseReply "515 Bad authentication\r\n") ∧
    ∀ e, (sendCommand sConn (Command.line "AUTHENTICATE \"wrong\"")
        "515 Bad authentication\r\n").result ≠ Except.error e :=
  c1_amended_resolves sConn 1 (Command.line "AUTHENTICATE \"wrong\"")
    "515 Bad authentication\r\n" rfl
    ⟨lineToResult "515 Bad authentication", by decide, 515, by decide, by decide⟩

-- ===============================
-- C2
-- ===============================

/-- C2: the repository test src/index.test.ts line 55 expects the state
property to read connected after a successful connect, and the claim says
the same, but no assignment in src/index.ts ever stores connected in the
state field. Here the README password configuration is used, the daemon
answers the AUTHENTICATE round trip with 250 OK so that connect settles
with data true and the authentication branch raises no error, and the
state field still reads disconnected. The part of the claim about the
state before connect does hold. -/
theorem c2_state_stays_disconnected :
    (mkTorControl cfgPassword).state = ConnState.disconnected ∧
    authenticate (connectOpen (mkTorControl cfgPassword) 1) "secure-password"
        "250 OK\r\n"
      = Except.ok (some { code := some 250, message := "OK" }) ∧
    (connectOnFirstData (connectOpen (mkTorControl cfgPassword) 1)
        "250 OK\r\n").1 = Except.ok true ∧
    (connectOnFirstData (connectOpen (mkTorControl cfgPassword) 1)
        "250 OK\r\n").2.state = ConnState.disconnected ∧
    (connectOnFirstData (connectOpen (mkTorControl cfgPassword) 1)
        "250 OK\r\n").2.state ≠ ConnState.connected := by
  decide

-- ===============================
-- C3
-- ===============================

/-- C3: the claimed invariant, transport handle non-null exactly when the
state is connected, fails on a reachable session: one step of connect
(opening the transport, src/index.ts line 56) yields a session holding a
socket while the state field still reads disconnected, and no later event
can repair this because the state field is never assigned connected. -/
theorem c3_invariant_fails :
    Reachable cfgPassword sConn ∧
    ¬ (sConn.connection.isSome = true ↔ sConn.state = ConnState.connected) :=
  ⟨Relation.ReflTransGen.single (Step.connOpen (mkTorControl cfgPassword) 1),
   by decide⟩

-- ===============================
-- C4
-- ===============================

/-- C4: on a connected session, for a reply burst whose non-empty lines
all carry a numeric code below 400, sendCommand settles with the data
branch holding exactly one Reply Line per non-empty segment of the
payload, in wire order; the segments are obtained by splitting on
CRLF-or-LF and dropping empty segments, and the entry for each segment
has as message the substring of the segment from offset four and as code
the JS numeric value of its first three characters. -/
theorem c4_reply_parsing (s : Session) (c : Nat) (cmd : Command)
    (reply : String) (hc : s.connection = some c)
    (hcodes : ∀ line ∈ nonEmptyLines reply,
      ∃ n, jsNumber (line.take 3) = some n ∧ n < (400 : Int)) :
    (sendCommand s cmd reply).result = Except.ok (parseReply reply) ∧
    (parseReply reply).length = (nonEmptyLines reply).length ∧
    ∀ (k : Nat) (line : String), (nonEmptyLines reply)[k]? = some line →
      (parseReply reply)[k]?
        = some (Result.mk (jsNumber (line.take 3)) (line.drop 4)) := by
  refine ⟨by simp [sendCommand, hc], by simp [parseReply], ?_⟩
  intro k line h
  simp [parseReply, List.getElem?_map, h, lineToResult]

/-- Witness for c4_reply_parsing at a concrete two-line 250 reply. -/
theorem c4_reply_parsing_witness :
    (sendCommand sConn (Command.tokens ["GETINFO", "version"])
        replyTwoLines).result = Except.ok (parseReply replyTwoLines) ∧
    (parseReply replyTwoLines).length = (nonEmptyLines replyTwoLines).length ∧
    ∀ (k : Nat) (line : String), (nonEmptyLines replyTwoLines)[k]? = some line →
      (parseReply replyTwoLines)[k]?
        = some (Result.mk (jsNumber (line.take 3)) (line.drop 4)) :=
  c4_reply_parsing sConn 1 (Command.tokens ["GETINFO", "version"])
    replyTwoLines rfl
    (by
      intro line hl
      have hlines : nonEmptyLines replyTwoLines
          = ["250-version=0.4.8.10", "250 OK"] := by decide
      rw [hlines] at hl
      simp only [List.mem_cons, List.not_mem_nil, or_false] at hl
      rcases hl with rfl | rfl
      · exact ⟨250, by decide, by decide⟩
      · exact ⟨250, by decide, by decide⟩)

-- ===============================
-- C5
-- ===============================

/-- C5, counterexample: against the payload of one line, 250 hyphen
version=0.4.8.10 CRLF, sendCommand yields the message without the
hyphen, because substring from offset four skips the separator
character; the claimed value keeps the separator and is not produced. -/
theorem c5_counterexample :
    (sendCommand sConn (Command.tokens ["GETINFO", "version"])
        "250-version=0.4.8.10\r\n").result
      = Except.ok [{ code := some 250, message := "version=0.4.8.10" }] ∧
    (sendCommand sConn (Command.tokens ["GETINFO", "version"])
        "250-version=0.4.8.10\r\n").result
      ≠ Except.ok [{ code := some 250, message := "-version=0.4.8.10" }] := by
  decide

/-- C5, amended: the same scenario yields code 250 with message
version=0.4.8.10, the four-character prefix rule dropping the three
digits and the separator, hyphen included. -/
theorem c5_amended_message :
    (sendCommand sConn (Command.tokens ["GETINFO", "version"])
        "250-version=0.4.8.10\r\n").result
      = Except.ok [{ code := some 250, message := "version=0.4.8.10" }] := by
  decide

-- ===============================
-- C6
-- ===============================

/-- C6: calling sendCommand while the connection field is null settles
with the not-connected error before any write: the write list is empty
whatever the command and whatever payload the transport would have
produced. -/
theorem c6_not_connected (s : Session) (cmd : Command) (reply : String)
    (h : s.connection = none) :
    (sendCommand s cmd reply).result = Except.error "TorControl not connected" ∧
    (sendCommand s cmd reply).writes = [] := by
  simp [sendCommand, h]

/-- Witness for c6_not_connected on a freshly constructed session. -/
theorem c6_not_connected_witness :
    (sendCommand (mkTorControl cfgPassword)
        (Command.tokens ["GETINFO", "version"]) "250 OK\r\n").result
      = Except.error "TorControl not connected" ∧
    (sendCommand (mkTorControl cfgPassword)
        (Command.tokens ["GETINFO", "version"]) "250 OK\r\n").writes = [] :=
  c6_not_connected (mkTorControl cfgPassword)
    (Command.tokens ["GETINFO", "version"]) "250 OK\r\n" rfl

-- ===============================
-- C7
-- ===============================

/-- C7, counterexample: getConfig does not split once and does not fail
on a message without an equals sign. Against a first line whose message
is SocksPort, with no equals sign, getConfig settles with the data
branch holding undefined, not with an error; and against a message
holding two equals signs it returns the segment between them, where a
split-once reading would return everything after the first. -/
theorem c7_counterexample :
    getConfig sConn "SocksPort" "250 SocksPort\r\n" = Except.ok none ∧
    getConfig sConn "HiddenServiceOptions" "250 HiddenServiceOptions=a=b\r\n"
      = Except.ok (some "a") := by
  decide

/-- C7, amended: getConfig splits the first reply line message on every
equals sign and returns the element at index 1 of the split, the text
between the first and second equals sign; when the message holds no
equals sign the split has a single segment and getConfig settles with
the data branch holding undefined, producing no error. -/
theorem c7_amended_split (s : Session) (c : Nat) (key reply : String)
    (r : Result) (hc : s.connection = some c)
    (hr : (parseReply reply)[0]? = some r) :
    getConfig s key reply = Except.ok ((jsSplit '=' r.message).get? 1) ∧
    ((∀ ch ∈ r.message.toList, ch ≠ '=') →
      getConfig s key reply = Except.ok none) := by
  have hmain : getConfig s key reply = Except.ok ((jsSplit '=' r.message).get? 1) := by
    simp [getConfig, solveAndPick, sendCommand, hc, hr]
  refine ⟨hmain, ?_⟩
  intro hno
  rw [hmain, jsSplit, jsSplitChars_no_sep '=' r.message.toList hno]
  rfl

/-- Witness for c7_amended_split at a concrete GETCONF reply. -/
theorem c7_amended_split_witness :
    getConfig sConn "SocksPort" "250 SocksPort=9050\r\n"
      = Except.ok ((jsSplit '=' "SocksPort=9050").get? 1) :=
  (c7_amended_split sConn 1 "SocksPort" "250 SocksPort=9050\r\n"
    { code := some 250, message := "SocksPort=9050" } rfl (by decide)).1

-- ===============================
-- C8
-- ===============================

/-- C8: disconnect is idempotent on every reachable session. The second
of two consecutive calls returns the session unchanged and writes
nothing, and after both calls the connection field is null and the state
field reads disconnected. Neither call raises: in the model every path
of disconnect returns a value, as in the source, where the only awaited
step is the best-effort QUIT round trip whose result is discarded. -/
theorem c8_disconnect_idempotent (c : PartialConfig) (s : Session)
    (r1 r2 : String) (h : Reachable c s) :
    (disconnect (disconnect s r1).1 r2).1 = (disconnect s r1).1 ∧
    (disconnect (disconnect s r1).1 r2).2 = [] ∧
    (disconnect s r1).1.connection = none ∧
    (disconnect s r1).1.state = ConnState.disconnected := by
  have hstate : s.state = ConnState.disconnected :=
    state_disconnected_of_reachable h
  cases hc : s.connection with
  | none => simp [disconnect, hc, hstate]
  | some conn => simp [disconnect, hc]

/-- Witness for c8_disconnect_idempotent on the session reached by one
connect step from the README password configuration. -/
theorem c8_disconnect_idempotent_witness :
    (disconnect (disconnect sConn "250 closing connection\r\n").1 "").1
      = (disconnect sConn "250 closing connection\r\n").1 ∧
    (disconnect (disconnect sConn "250 closing connection\r\n").1 "").2 = [] ∧
    (disconnect sConn "250 closing connection\r\n").1.connection = none ∧
    (disconnect sConn "250 closing connection\r\n").1.state
      = ConnState.disconnected :=
  c8_disconnect_idempotent cfgPassword sConn "250 closing connection\r\n" ""
    (Relation.ReflTransGen.single (Step.connOpen (mkTorControl cfgPassword) 1))

-- ===============================
-- C9
-- ===============================

/-- C9, counterexample: with a cookie configuration whose cookie file
cannot be read, the authentication step inside connect settles with the
wrapped read error and connect settles with that error, but the
transport is not torn down: the connection field still holds the socket
opened at the start of connect, so the claim that the transport handle
is released is false of the code. -/
theorem c9_counterexample :
    authenticateWithCookie sCookie (Except.error "ENOENT: no such file") ""
      = Except.error "Failed to read cookie file: ENOENT: no such file" ∧
    (connectOnAuthError sCookie
        "Failed to read cookie file: ENOENT: no such file").1
      = Except.error "Failed to read cookie file: ENOENT: no such file" ∧
    (connectOnAuthError sCookie
        "Failed to read cookie file: ENOENT: no such file").2.connection
      = some 2 := by
  decide

/-- C9, amended: when the authentication step inside connect fails,
connect settles with the underlying error, but no teardown happens: the
session is returned with every field unchanged, the transport handle
still set to the socket opened at the start of connect. -/
theorem c9_amended_no_teardown (c : PartialConfig) (conn : Nat)
    (e reply : String) :
    authenticateWithCookie (connectOpen (mkTorControl c) conn)
        (Except.error e) reply
      = Except.error ("Failed to read cookie file: " ++ e) ∧
    (connectOnAuthError (connectOpen (mkTorControl c) conn)
        ("Failed to read cookie file: " ++ e)).1
      = Except.error ("Failed to read cookie file: " ++ e) ∧
    (connectOnAuthError (connectOpen (mkTorControl c) conn)
        ("Failed to read cookie file: " ++ e)).2.connection = some conn :=
  ⟨rfl, rfl, rfl⟩

-- ===============================
-- C10
-- ===============================

/-- C10: when the reply payload contains no non-empty line the parsed
Reply List is empty, and every first-result convenience operation picks
element 0 of that empty list, the JS indexing yielding undefined; the
operation settles with the data branch holding undefined and produces no
error, shown here for authenticate, quit, getInfo and setConfig. -/
theorem c10_empty_reply (s : Session) (c : Nat) (pw key ck vl reply : String)
    (hc : s.connection = some c) (he : parseReply reply = []) :
    authenticate s pw reply = Except.ok none ∧
    quit s reply = Except.ok none ∧
    getInfo s key reply = Except.ok none ∧
    setConfig s ck vl reply = Except.ok none := by
  simp [authenticate, quit, getInfo, setConfig, solveAndPick, sendCommand,
    hc, he]

/-- Witness for c10_empty_reply at the payload consisting of one CRLF. -/
theorem c10_empty_reply_witness :
    authenticate sConn "secure-password" "\r\n" = Except.ok none ∧
    quit sConn "\r\n" = Except.ok none ∧
    getInfo sConn "version" "\r\n" = Except.ok none ∧
    setConfig sConn "SocksPort" "9050" "\r\n" = Except.ok none :=
  c10_empty_reply sConn 1 "secure-password" "version" "SocksPort" "9050"
    "\r\n" rfl (by decide)

end TorCtrl
